import Mathlib

/-!
Verification development for the chess rules engine in
`src/components/ChessApp.tsx` (the first `ChessApp` component in the file,
lines 30-1114, which the claims reference).  The board is an 8x8 array of
strings: uppercase letters are white pieces, lowercase black, `""` empty,
exactly as in the source (`type Board = string[][]`).

Conventions of the shallow embedding:
* rows and columns are `Int` (the source indexes with possibly-negative
  numbers such as `row + direction`; out-of-range access yields `undefined`,
  modelled by the total getters below returning `""` / `none`);
* React `useState` component state is passed explicitly: a `GameState`
  record holds `board`, `currentPlayer`, `moveHistory`, `gameResult`,
  `kingMoved`, `rookMoved` and `enPassantTarget`;
* inside one event-handler invocation the source reads the state variables
  captured by the render closure, so updates made earlier in the same call
  (`setEnPassantTarget`, `setKingMoved`, ...) are NOT visible to later reads
  in that call.  `movePiece` therefore evaluates its checkmate/stalemate
  test with the PRE-move `enPassantTarget`/`kingMoved`/`rookMoved` values,
  which the embedding reproduces.
-/

namespace ChessApp

/-- `string[][]`, row 0 = rank 8 as in the source. -/
abbrev Board := List (List String)

/-- JS `s.toUpperCase()` for the one-letter piece strings (character-list
map, so that it evaluates by kernel reduction). -/
def upStr (s : String) : String := String.mk (s.data.map Char.toUpper)

/-- JS `s.toLowerCase()` for the one-letter piece strings. -/
def loStr (s : String) : String := String.mk (s.data.map Char.toLower)

/-- Plain indexing `boardState[r][c]`: in the source this is only reached
with indices already known to be on the board; out of range we return `""`
(JS would give `undefined`, which all uses treat as falsy/empty). -/
def cellI (b : Board) (r c : Int) : String :=
  if 0 ≤ r ∧ 0 ≤ c then (b.getD r.toNat []).getD c.toNat "" else ""

/-- Optional-chained indexing `boardState[r]?.[c]`: `none` is JS `undefined`. -/
def bGet (b : Board) (r c : Int) : Option String :=
  if 0 ≤ r ∧ 0 ≤ c then (b.get? r.toNat).bind (fun row => row.get? c.toNat)
  else none

/-- JS truthiness of `boardState[r]?.[c]` (`undefined` and `""` are falsy). -/
def truthy (o : Option String) : Bool := o.getD "" ≠ ""

/-- Assignment `board[r][c] = v` on a fresh copy (the source copies with
`board.map(r => [...r])` first; all writes are in range). -/
def setCell (b : Board) (r c : Int) (v : String) : Board :=
  if 0 ≤ r ∧ 0 ≤ c then b.set r.toNat ((b.getD r.toNat []).set c.toNat v) else b

/-- `INITIAL_BOARD` (ChessApp.tsx lines 30-39). -/
def INITIAL_BOARD : Board :=
  [ ["r", "n", "b", "q", "k", "b", "n", "r"],
    ["p", "p", "p", "p", "p", "p", "p", "p"],
    ["", "", "", "", "", "", "", ""],
    ["", "", "", "", "", "", "", ""],
    ["", "", "", "", "", "", "", ""],
    ["", "", "", "", "", "", "", ""],
    ["P", "P", "P", "P", "P", "P", "P", "P"],
    ["R", "N", "B", "Q", "K", "B", "N", "R"] ]

inductive Color where
  | white
  | black
deriving DecidableEq, Repr

/-- The opponent of a color (`color === 'white' ? 'black' : 'white'`). -/
def opponent : Color → Color
  | Color.white => Color.black
  | Color.black => Color.white

/-- `kingMoved` state (line 58). -/
structure KingMoved where
  white : Bool
  black : Bool
deriving DecidableEq, Repr

/-- `rookMoved` state (lines 59-64). -/
structure RookMoved where
  whiteKingSide : Bool
  whiteQueenSide : Bool
  blackKingSide : Bool
  blackQueenSide : Bool
deriving DecidableEq, Repr

/-- One entry of the `moves` array of `getValidMovesForBoard`: `[r, c]`, or
`[r, c, 1]` marking en passant (line 641).  The first revision's generator
never pushes a string tag in the third slot, so a `Bool` captures it. -/
structure Mv where
  r : Int
  c : Int
  ep : Bool
deriving DecidableEq, Repr

/-- Knight offsets (lines 647-650 and 765-768). -/
def knightOffsets : List (Int × Int) :=
  [(-2, -1), (-2, 1), (-1, -2), (-1, 2), (1, -2), (1, 2), (2, -1), (2, 1)]

/-- King-step offsets in the order of the `dr`/`dc` loops (lines 701-715). -/
def kingOffsets : List (Int × Int) :=
  [(-1, -1), (-1, 0), (-1, 1), (0, -1), (0, 1), (1, -1), (1, 0), (1, 1)]

/-- One sliding ray of the rook/bishop/queen loops (lines 666-698):
`for (let i = 1; i < 8; i++)` walking direction `(dr, dc)` from `(row, col)`,
stopping at the edge, before an own piece, or on an enemy piece. -/
def ray (b : Board) (isWhite : Bool) (row col dr dc : Int) : Nat → Int → List Mv
  | 0, _ => []
  | Nat.succ fuel, i =>
    let nr := row + dr * i
    let nc := col + dc * i
    if nr < 0 ∨ 8 ≤ nr ∨ nc < 0 ∨ 8 ≤ nc then []
    else
      let t := cellI b nr nc
      if t = "" then ⟨nr, nc, false⟩ :: ray b isWhite row col dr dc fuel (i + 1)
      else if isWhite ≠ (upStr t = t) then [⟨nr, nc, false⟩] else []

/-- `getValidMovesForBoard(boardState, row, col)` (lines 608-736): the
pseudo-legal move generator.  It reads the component state `enPassantTarget`,
`kingMoved` and `rookMoved` from its closure; they are parameters here. -/
def getValidMovesForBoard (enPassantTarget : Option (Int × Int))
    (kingMoved : KingMoved) (rookMoved : RookMoved)
    (b : Board) (row col : Int) : List Mv :=
  let piece := cellI b row col
  if piece = "" then []
  else
    let pieceType := loStr piece
    let isWhite := piece = upStr piece
    let direction : Int := if isWhite then -1 else 1
    let pawnMoves : List Mv :=
      (if bGet b (row + direction) col = some "" then
        ⟨row + direction, col, false⟩ ::
          (if ((isWhite ∧ row = 6) ∨ (¬isWhite ∧ row = 1))
              ∧ bGet b (row + 2 * direction) col = some "" then
            [⟨row + 2 * direction, col, false⟩]
          else [])
      else []) ++
      (([-1, 1] : List Int).filterMap (fun colOffset =>
        let targetPiece := bGet b (row + direction) (col + colOffset)
        if truthy targetPiece ∧ isWhite ≠ (targetPiece.getD "" = upStr (targetPiece.getD "")) then
          some ⟨row + direction, col + colOffset, false⟩
        else none)) ++
      (match enPassantTarget with
       | some (epRow, epCol) =>
         if epRow = row + direction ∧ (epCol - col).natAbs = 1 then
           [⟨epRow, epCol, true⟩]
         else []
       | none => [])
    let knightMoves : List Mv :=
      knightOffsets.filterMap (fun d =>
        let newRow := row + d.1
        let newCol := col + d.2
        if 0 ≤ newRow ∧ newRow < 8 ∧ 0 ≤ newCol ∧ newCol < 8 then
          let targetPiece := cellI b newRow newCol
          if targetPiece = "" then some ⟨newRow, newCol, false⟩
          else if isWhite ≠ (targetPiece = upStr targetPiece) then
            some ⟨newRow, newCol, false⟩
          else none
        else none)
    let rookQueenMoves : List Mv :=
      ([(0, 1), (0, -1), (1, 0), (-1, 0)] : List (Int × Int)).flatMap
        (fun d => ray b isWhite row col d.1 d.2 7 1)
    let bishopQueenMoves : List Mv :=
      ([(1, 1), (1, -1), (-1, 1), (-1, -1)] : List (Int × Int)).flatMap
        (fun d => ray b isWhite row col d.1 d.2 7 1)
    let kingSteps : List Mv :=
      kingOffsets.filterMap (fun d =>
        let newRow := row + d.1
        let newCol := col + d.2
        if 0 ≤ newRow ∧ newRow < 8 ∧ 0 ≤ newCol ∧ newCol < 8 then
          let targetPiece := cellI b newRow newCol
          if targetPiece = "" then some ⟨newRow, newCol, false⟩
          else if isWhite ≠ (targetPiece = upStr targetPiece) then
            some ⟨newRow, newCol, false⟩
          else none
        else none)
    let castleMoves : List Mv :=
      if isWhite then
        (if ¬kingMoved.white ∧ ¬rookMoved.whiteKingSide
            ∧ cellI b 7 5 = "" ∧ cellI b 7 6 = "" ∧ cellI b 7 7 = "R" then
          [⟨7, 6, false⟩] else []) ++
        (if ¬kingMoved.white ∧ ¬rookMoved.whiteQueenSide
            ∧ cellI b 7 1 = "" ∧ cellI b 7 2 = "" ∧ cellI b 7 3 = ""
            ∧ cellI b 7 0 = "R" then
          [⟨7, 2, false⟩] else [])
      else
        (if ¬kingMoved.black ∧ ¬rookMoved.blackKingSide
            ∧ cellI b 0 5 = "" ∧ cellI b 0 6 = "" ∧ cellI b 0 7 = "r" then
          [⟨0, 6, false⟩] else []) ++
        (if ¬kingMoved.black ∧ ¬rookMoved.blackQueenSide
            ∧ cellI b 0 1 = "" ∧ cellI b 0 2 = "" ∧ cellI b 0 3 = ""
            ∧ cellI b 0 0 = "r" then
          [⟨0, 2, false⟩] else [])
    (if pieceType = "p" then pawnMoves else []) ++
    (if pieceType = "n" then knightMoves else []) ++
    (if pieceType = "r" ∨ pieceType = "q" then rookQueenMoves else []) ++
    (if pieceType = "b" ∨ pieceType = "q" then bishopQueenMoves else []) ++
    (if pieceType = "k" then kingSteps ++ castleMoves else [])

/-- The squares strictly between two indices on a line, as scanned by the
blocking loops of `isSquareUnderAttack` (lines 798-817). -/
def betweenList (a b : Int) : List Int :=
  let lo := min a b
  let hi := max a b
  (List.range (hi - lo - 1).toNat).map (fun i => lo + 1 + (i : Int))

/-- The body of the piece scan of `isSquareUnderAttack` (lines 741-847): does
the piece on `(r, c)` attack `(row, col)` when it belongs to `byColor`? -/
def attacksFrom (b : Board) (r c : Nat) (row col : Int) (byColor : Color) : Bool :=
  let piece := cellI b r c
  if piece = "" then false
  else
    let pieceIsWhite := piece = upStr piece
    let pieceColor := if pieceIsWhite then Color.white else Color.black
    if pieceColor ≠ byColor then false
    else
      let pt := loStr piece
      if pt = "p" then
        let direction : Int := if pieceIsWhite then -1 else 1
        decide ((r : Int) + direction = row ∧ ((c : Int) - 1 = col ∨ (c : Int) + 1 = col))
      else if pt = "n" then
        knightOffsets.any (fun d => decide ((r : Int) + d.1 = row ∧ (c : Int) + d.2 = col))
      else if pt = "k" then
        let rowDiff := ((r : Int) - row).natAbs
        let colDiff := ((c : Int) - col).natAbs
        decide (rowDiff ≤ 1 ∧ colDiff ≤ 1 ∧ 0 < rowDiff + colDiff)
      else
        let isRookOrQueen := pt = "r" ∨ pt = "q"
        let isBishopOrQueen := pt = "b" ∨ pt = "q"
        let sameRow :=
          decide ((r : Int) = row) &&
            !((betweenList (c : Int) col).any (fun cc => cellI b r cc ≠ ""))
        let sameCol :=
          decide ((c : Int) = col) &&
            !((betweenList (r : Int) row).any (fun rr => cellI b rr c ≠ ""))
        let rowDiff := ((r : Int) - row).natAbs
        let colDiff := ((c : Int) - col).natAbs
        let rowDir : Int := if row > (r : Int) then 1 else -1
        let colDir : Int := if col > (c : Int) then 1 else -1
        let diag :=
          decide (rowDiff = colDiff ∧ 0 < rowDiff) &&
            !((List.range (rowDiff - 1)).any (fun i =>
              cellI b ((r : Int) + rowDir * ((i : Int) + 1))
                ((c : Int) + colDir * ((i : Int) + 1)) ≠ ""))
        (decide isRookOrQueen && (sameRow || sameCol)) ||
          (decide isBishopOrQueen && diag)

/-- `isSquareUnderAttack(boardState, row, col, byColor)` (lines 739-850). -/
def isSquareUnderAttack (b : Board) (row col : Int) (byColor : Color) : Bool :=
  (List.range 8).any (fun r => (List.range 8).any (fun c =>
    attacksFrom b r c row col byColor))

/-- The king search of `isKingInCheck` (lines 855-868): first square in
row-major order holding the king piece. -/
def findKing (b : Board) (kingPiece : String) : Option (Nat × Nat) :=
  (List.range 8).findSome? (fun (r : Nat) =>
    ((List.range 8).find? (fun (c : Nat) => cellI b r c == kingPiece)).map
      (fun (c : Nat) => (r, c)))

/-- `isKingInCheck(boardState, color)` (lines 853-878).  When the king is
missing the source returns `false`. -/
def isKingInCheck (b : Board) (color : Color) : Bool :=
  let kingPiece := if color = Color.white then "K" else "k"
  match findKing b kingPiece with
  | none => false
  | some (kingRow, kingCol) => isSquareUnderAttack b kingRow kingCol (opponent color)

/-- The move simulation used by `getValidMoves` and `hasLegalMoves`
(lines 897-902 and 933-938): copy the board, put the source piece on the
destination, empty the source.  No en-passant removal, no rook relocation,
no promotion. -/
def simApply (b : Board) (row col toRow toCol : Int) : Board :=
  setCell (setCell b toRow toCol (cellI b row col)) row col ""

/-- `hasLegalMoves(boardState, color)` (lines 881-912).  It calls
`getValidMovesForBoard`, which reads `enPassantTarget`/`kingMoved`/`rookMoved`
from the closure; they are parameters here. -/
def hasLegalMoves (enPassantTarget : Option (Int × Int)) (kingMoved : KingMoved)
    (rookMoved : RookMoved) (b : Board) (color : Color) : Bool :=
  (List.range 8).any (fun row => (List.range 8).any (fun col =>
    let piece := cellI b row col
    if piece = "" then false
    else
      let pieceColor := if piece = upStr piece then Color.white else Color.black
      if pieceColor ≠ color then false
      else
        (getValidMovesForBoard enPassantTarget kingMoved rookMoved b row col).any
          (fun mv => !isKingInCheck (simApply b row col mv.r mv.c) color)))

/-- `isCheckmate(boardState, color)` (lines 915-917). -/
def isCheckmate (enPassantTarget : Option (Int × Int)) (kingMoved : KingMoved)
    (rookMoved : RookMoved) (b : Board) (color : Color) : Bool :=
  isKingInCheck b color && !hasLegalMoves enPassantTarget kingMoved rookMoved b color

/-- `isStalemate(boardState, color)` (lines 920-922). -/
def isStalemate (enPassantTarget : Option (Int × Int)) (kingMoved : KingMoved)
    (rookMoved : RookMoved) (b : Board) (color : Color) : Bool :=
  !isKingInCheck b color && !hasLegalMoves enPassantTarget kingMoved rookMoved b color

/-- The chess-relevant component state of `ChessApp` (lines 42-66): the
`useState` variables `board`, `currentPlayer`, `moveHistory`, `gameResult`,
`kingMoved`, `rookMoved` and `enPassantTarget`. -/
structure GameState where
  board : Board
  currentPlayer : Color
  moveHistory : List String
  gameResult : Option String
  kingMoved : KingMoved
  rookMoved : RookMoved
  enPassantTarget : Option (Int × Int)
deriving DecidableEq, Repr

/-- The initial component state (lines 42-66), also what `resetGame`
(lines 1098-1109) restores. -/
def initialState : GameState where
  board := INITIAL_BOARD
  currentPlayer := Color.white
  moveHistory := []
  gameResult := none
  kingMoved := { white := false, black := false }
  rookMoved := { whiteKingSide := false, whiteQueenSide := false,
                 blackKingSide := false, blackQueenSide := false }
  enPassantTarget := none

/-- `getValidMoves(row, col)` (lines 924-945): pseudo-legal moves filtered by
simulating the bare from-to move and rejecting those that leave the mover's
own king in check.  Reads the current component state. -/
def getValidMoves (st : GameState) (row col : Int) : List Mv :=
  let pseudoLegalMoves :=
    getValidMovesForBoard st.enPassantTarget st.kingMoved st.rookMoved st.board row col
  let piece := cellI st.board row col
  if piece = "" then []
  else
    let pieceColor := if piece = upStr piece then Color.white else Color.black
    pseudoLegalMoves.filter (fun mv =>
      !isKingInCheck (simApply st.board row col mv.r mv.c) pieceColor)

/-- `files[c]` for `const files = 'abcdefgh'` (line 1066). -/
def fileStr (c : Int) : String :=
  if 0 ≤ c then (["a", "b", "c", "d", "e", "f", "g", "h"].getD c.toNat "") else ""

/-- The UCI move string built by `movePiece` and `makeRandomMove`
(lines 587 and 1067): file + rank of source, then of destination. -/
def uciOf (fromRow fromCol toRow toCol : Int) : String :=
  fileStr fromCol ++ toString (8 - fromRow) ++ fileStr toCol ++ toString (8 - toRow)

/-- `movePiece(fromRow, fromCol, toRow, toCol, castleType, isEnPassant)`
(lines 1000-1096).  In the source the `setX` calls schedule state updates;
reads of `enPassantTarget`, `kingMoved` and `rookMoved` inside the same call
(the `isCheckmate`/`isStalemate` tests on line 1083/1086, via
`getValidMovesForBoard`) still see the render closure's PRE-move values,
which is reproduced here by passing `st.enPassantTarget`, `st.kingMoved`
and `st.rookMoved` to those tests. -/
def movePiece (st : GameState) (fromRow fromCol toRow toCol : Int)
    (castleType : Option String) (isEnPassant : Bool) : GameState :=
  let piece := cellI st.board fromRow fromCol
  let pieceType := loStr piece
  let isWhite := piece = upStr piece
  let newBoard : Board :=
    if castleType = some "castle-kingside" then
      let b1 := setCell st.board toRow toCol piece
      let b2 := setCell b1 fromRow fromCol ""
      let b3 := setCell b2 toRow 5 (cellI b2 toRow 7)
      setCell b3 toRow 7 ""
    else if castleType = some "castle-queenside" then
      let b1 := setCell st.board toRow toCol piece
      let b2 := setCell b1 fromRow fromCol ""
      let b3 := setCell b2 toRow 3 (cellI b2 toRow 0)
      setCell b3 toRow 0 ""
    else if isEnPassant then
      let b1 := setCell st.board toRow toCol piece
      let b2 := setCell b1 fromRow fromCol ""
      setCell b2 fromRow toCol ""
    else
      let b1 := setCell st.board toRow toCol piece
      let b2 := setCell b1 fromRow fromCol ""
      if pieceType = "p" ∧ isWhite ∧ toRow = 0 then setCell b2 toRow toCol "Q"
      else if pieceType = "p" ∧ ¬isWhite ∧ toRow = 7 then setCell b2 toRow toCol "q"
      else b2
  let newEnPassant : Option (Int × Int) :=
    if pieceType = "p" ∧ (toRow - fromRow).natAbs = 2 then
      some (if isWhite then fromRow - 1 else fromRow + 1, fromCol)
    else none
  let newKingMoved : KingMoved :=
    if pieceType = "k" then
      if isWhite then { st.kingMoved with white := true }
      else { st.kingMoved with black := true }
    else st.kingMoved
  let newRookMoved : RookMoved :=
    if pieceType = "r" then
      if isWhite then
        if fromRow = 7 ∧ fromCol = 0 then { st.rookMoved with whiteQueenSide := true }
        else if fromRow = 7 ∧ fromCol = 7 then { st.rookMoved with whiteKingSide := true }
        else st.rookMoved
      else
        if fromRow = 0 ∧ fromCol = 0 then { st.rookMoved with blackQueenSide := true }
        else if fromRow = 0 ∧ fromCol = 7 then { st.rookMoved with blackKingSide := true }
        else st.rookMoved
    else st.rookMoved
  let moveStr :=
    uciOf fromRow fromCol toRow toCol ++
      (if pieceType = "p" ∧ ((isWhite ∧ toRow = 0) ∨ (¬isWhite ∧ toRow = 7))
       then "q" else "")
  let nextPlayer := opponent st.currentPlayer
  let newResult : Option String :=
    if isCheckmate st.enPassantTarget st.kingMoved st.rookMoved newBoard nextPlayer then
      some (if st.currentPlayer = Color.white then "1-0" else "0-1")
    else if isStalemate st.enPassantTarget st.kingMoved st.rookMoved newBoard nextPlayer then
      some "1/2-1/2"
    else st.gameResult
  { board := newBoard
    currentPlayer := nextPlayer
    moveHistory := st.moveHistory ++ [moveStr]
    gameResult := newResult
    kingMoved := newKingMoved
    rookMoved := newRookMoved
    enPassantTarget := newEnPassant }

/-- The `allMoves` list collected by `makeRandomMove` (lines 566-577): every
pseudo-legal move of every black (lowercase) piece, with no legality filter.
`Math.random()` then picks any element, so a position is AI-reachable when it
results from applying some member of this list. -/
def makeRandomMoveCandidates (st : GameState) : List ((Int × Int) × Mv) :=
  (List.range 8).flatMap (fun (row : Nat) => (List.range 8).flatMap (fun (col : Nat) =>
    let piece := cellI st.board row col
    if piece ≠ "" ∧ piece = loStr piece then
      (getValidMovesForBoard st.enPassantTarget st.kingMoved st.rookMoved
        st.board row col).map (fun mv => (((row : Int), (col : Int)), mv))
    else []))

/-- The state update `makeRandomMove` performs for the chosen move
(lines 579-595): bare from-to board update (the en-passant marker and any
castle are ignored), history append, `currentPlayer := white`.  It touches
neither `enPassantTarget`, nor `kingMoved`/`rookMoved`, nor `gameResult`. -/
def makeRandomMoveApply (st : GameState) (fromSq : Int × Int) (mv : Mv) : GameState :=
  let piece := cellI st.board fromSq.1 fromSq.2
  let newBoard := setCell (setCell st.board mv.r mv.c piece) fromSq.1 fromSq.2 ""
  { st with
    board := newBoard
    moveHistory := st.moveHistory ++ [uciOf fromSq.1 fromSq.2 mv.r mv.c]
    currentPlayer := Color.white }

/-- One rank of the FEN piece-placement field (lines 481-496): empty squares
are run-length encoded. -/
def rowFen : List String → Nat → String
  | [], emptyCount => if emptyCount > 0 then toString emptyCount else ""
  | p :: rest, emptyCount =>
    if p = "" then rowFen rest (emptyCount + 1)
    else (if emptyCount > 0 then toString emptyCount else "") ++ p ++ rowFen rest 0

/-- `boardToFEN()` (lines 479-512).  Ranks joined by `/` (the source appends
`/` after every rank and slices the last one off), then the literal tail
`' w KQkq - 0 1'` / `' b KQkq - 0 1'`: side to move from `currentPlayer`,
castling and en-passant fields CONSTANT.  The king-count validation in the
source only logs a warning and does not change the output. -/
def boardToFEN (st : GameState) : String :=
  String.intercalate "/" (st.board.map (fun row => rowFen row 0)) ++
    (if st.currentPlayer = Color.white then " w" else " b") ++ " KQkq - 0 1"

/-- `undoMove()` (lines 1111-1114): with a non-empty history it calls
`resetGame()`, whose chess-relevant effect is restoring `initialState`;
with an empty history it returns without changing anything. -/
def undoMove (st : GameState) : GameState :=
  if st.moveHistory.length = 0 then st else initialState

/-- Number of cells of the board holding the piece string `s` (the king
count that `boardToFEN`'s validation warns about, lines 500-506). -/
def countPiece (b : Board) (s : String) : Nat :=
  (b.map (fun row => row.countP (fun x => x == s))).sum

/-! ## Concrete games used by the claims

Every move of each game is shown to be a member of `getValidMoves` of the
state it is played from (the only way `handleSquareClick`, lines 967-998,
reaches `movePiece`), so each intermediate position is reachable through
the program's own move application. -/

/-- The state after the legal opening move e2e4 (`movePiece` from the
initial state). -/
def afterE2E4 : GameState := movePiece initialState 6 4 4 4 none false

/-! The C1 game: white walks the king to b5 behind the c5 pawn, black parks
a rook on g5 behind the d5/c5 pawns, then plays d7d5; the en-passant capture
c5xd6 opens the fifth rank and leaves white's king in check from the rook. -/

def c1e1 : GameState := movePiece initialState 6 2 4 2 none false
def c1e2 : GameState := movePiece c1e1 1 7 3 7 none false
def c1e3 : GameState := movePiece c1e2 6 3 5 3 none false
def c1e4 : GameState := movePiece c1e3 0 7 2 7 none false
def c1e5 : GameState := movePiece c1e4 4 2 3 2 none false
def c1e6 : GameState := movePiece c1e5 2 7 2 6 none false
def c1e7 : GameState := movePiece c1e6 7 4 6 3 none false
def c1e8 : GameState := movePiece c1e7 2 6 3 6 none false
def c1e9 : GameState := movePiece c1e8 6 3 5 2 none false
def c1e10 : GameState := movePiece c1e9 0 6 2 5 none false
def c1e11 : GameState := movePiece c1e10 5 2 4 1 none false
def c1e12 : GameState := movePiece c1e11 2 5 0 6 none false
def c1e13 : GameState := movePiece c1e12 4 1 3 1 none false
def c1e14 : GameState := movePiece c1e13 1 3 3 3 none false
/-- The state after the en-passant capture c5xd6 played from `c1e14`
(`handleSquareClick` passes `isEnPassant := true` for the marked move). -/
def c1e15 : GameState := movePiece c1e14 3 2 2 3 none true

/-! The C2 game, in vs-AI mode: 1. e2e4 (human, legal) g7g5 (AI, one of
`makeRandomMove`'s candidates) 2. Qd1h5 (human, legal) f7f6 (AI candidate —
`makeRandomMove` applies pseudo-legal moves with no check filter) 3. Qh5xe8:
the black king is attacked after black's unfiltered f7f6, so capturing it is
among white's `getValidMoves`, and `movePiece` applies it. -/

def c2d2 : GameState := makeRandomMoveApply afterE2E4 (1, 6) ⟨3, 6, false⟩
def c2d3 : GameState := movePiece c2d2 7 3 3 7 none false
def c2d4 : GameState := makeRandomMoveApply c2d3 (1, 5) ⟨2, 5, false⟩
def c2d5 : GameState := movePiece c2d4 3 7 0 4 none false

/-! The C6 game: 1. e2e4 a7a6 2. e4e5 d7d5 3. e5xd6 en passant. -/

def c6g2 : GameState := movePiece afterE2E4 1 0 2 0 none false
def c6g3 : GameState := movePiece c6g2 4 4 3 4 none false
def c6g4 : GameState := movePiece c6g3 1 3 3 3 none false
def c6g5 : GameState := movePiece c6g4 3 4 2 3 none true

/-! The C7 game: the fool's mate 1. f2f3 e7e5 2. g2g4 Qd8h4. -/

def c7f1 : GameState := movePiece initialState 6 5 5 5 none false
def c7f2 : GameState := movePiece c7f1 1 4 3 4 none false
def c7f3 : GameState := movePiece c7f2 6 6 4 6 none false
def c7f4 : GameState := movePiece c7f3 0 3 4 7 none false

/-- C4 counterexample position: white Ke1 and Rh1 with castling rights and
f1/g1 empty, black Ka8, black Re8 giving check down the open e-file. -/
def c4Board : Board :=
  [ ["k", "", "", "", "r", "", "", ""],
    ["", "", "", "", "", "", "", ""],
    ["", "", "", "", "", "", "", ""],
    ["", "", "", "", "", "", "", ""],
    ["", "", "", "", "", "", "", ""],
    ["", "", "", "", "", "", "", ""],
    ["", "", "", "", "", "", "", ""],
    ["", "", "", "", "K", "", "", "R"] ]

def c4St : GameState := { initialState with board := c4Board }

/-- C9 counterexample position: black to move with a rook on h3; white Ke1
and the white kingside rook still on its home square h1. -/
def c9Board : Board :=
  [ ["", "", "", "", "k", "", "", ""],
    ["", "", "", "", "", "", "", ""],
    ["", "", "", "", "", "", "", ""],
    ["", "", "", "", "", "", "", ""],
    ["", "", "", "", "", "", "", ""],
    ["", "", "", "", "", "", "", "r"],
    ["", "", "", "", "", "", "", ""],
    ["", "", "", "", "K", "", "", "R"] ]

def c9St : GameState :=
  { initialState with board := c9Board, currentPlayer := Color.black }

/-- The state after black's legal Rh3xh1, capturing the white kingside rook
on its home square. -/
def c9Res : GameState := movePiece c9St 5 7 7 7 none false

/-- The state after `movePiece` is handed the illegal move e2e5 from the
initial position. -/
def c5Res : GameState := movePiece initialState 6 4 3 4 none false

/-- The state after the AI (makeRandomMove path) answers 1. e2e4 with the
knight move g8f6. -/
def c8d2 : GameState := makeRandomMoveApply afterE2E4 (0, 6) ⟨2, 5, false⟩

/-! ## Claim theorems -/

/-- Claim C1.  The claim states that every move returned by `getValidMoves`,
applied with its full effect (en-passant pawn removal included), leaves the
mover's king out of check.  This evaluation refutes it on the code: in the
position `c1e14`, reached from the initial position by fourteen moves each
member of `getValidMoves` of its state, the en-passant capture c5xd6 is in
`getValidMoves` (its filter simulates only the bare from-to move, leaving
the captured d5 pawn on the board to block the g5 rook), yet after
`movePiece` applies its full effect (removing the d5 pawn) white's own king
on b5 stands in check from the rook on g5. -/
theorem claim_C1_filter_keeps_en_passant_self_check :
    (⟨4, 2, false⟩ : Mv) ∈ getValidMoves initialState 6 2 ∧
    (⟨3, 7, false⟩ : Mv) ∈ getValidMoves c1e1 1 7 ∧
    (⟨5, 3, false⟩ : Mv) ∈ getValidMoves c1e2 6 3 ∧
    (⟨2, 7, false⟩ : Mv) ∈ getValidMoves c1e3 0 7 ∧
    (⟨3, 2, false⟩ : Mv) ∈ getValidMoves c1e4 4 2 ∧
    (⟨2, 6, false⟩ : Mv) ∈ getValidMoves c1e5 2 7 ∧
    (⟨6, 3, false⟩ : Mv) ∈ getValidMoves c1e6 7 4 ∧
    (⟨3, 6, false⟩ : Mv) ∈ getValidMoves c1e7 2 6 ∧
    (⟨5, 2, false⟩ : Mv) ∈ getValidMoves c1e8 6 3 ∧
    (⟨2, 5, false⟩ : Mv) ∈ getValidMoves c1e9 0 6 ∧
    (⟨4, 1, false⟩ : Mv) ∈ getValidMoves c1e10 5 2 ∧
    (⟨0, 6, false⟩ : Mv) ∈ getValidMoves c1e11 2 5 ∧
    (⟨3, 1, false⟩ : Mv) ∈ getValidMoves c1e12 4 1 ∧
    (⟨3, 3, false⟩ : Mv) ∈ getValidMoves c1e13 1 3 ∧
    c1e14.currentPlayer = Color.white ∧
    c1e14.enPassantTarget = some (2, 3) ∧
    (⟨2, 3, true⟩ : Mv) ∈ getValidMoves c1e14 3 2 ∧
    isKingInCheck c1e15.board Color.white = true := by
  decide

/-- Claim C2.  The claim states that every position reachable through
`movePiece` and `makeRandomMove` has exactly one king of each color.  This
evaluation refutes it: in vs-AI mode, after white's legal e2e4 and Qd1h5 and
two pseudo-legal AI replies that `makeRandomMove` can pick (g7g5, then f7f6,
which exposes the black king — `makeRandomMove` applies candidates with no
legality filter), capturing the black king with Qh5xe8 is among white's
`getValidMoves`, and applying it leaves a reachable board with zero black
kings. -/
theorem claim_C2_ai_path_reaches_king_capture :
    (⟨4, 4, false⟩ : Mv) ∈ getValidMoves initialState 6 4 ∧
    (((1, 6), ⟨3, 6, false⟩) : (Int × Int) × Mv) ∈ makeRandomMoveCandidates afterE2E4 ∧
    c2d2.currentPlayer = Color.white ∧
    (⟨3, 7, false⟩ : Mv) ∈ getValidMoves c2d2 7 3 ∧
    (((1, 5), ⟨2, 5, false⟩) : (Int × Int) × Mv) ∈ makeRandomMoveCandidates c2d3 ∧
    c2d4.currentPlayer = Color.white ∧
    (⟨0, 4, false⟩ : Mv) ∈ getValidMoves c2d4 3 7 ∧
    countPiece initialState.board "k" = 1 ∧
    countPiece c2d5.board "k" = 0 := by
  decide

/-- Claim C3.  The claim states that `boardToFEN` derives the castling and
en-passant fields from the position's state.  This evaluation refutes it:
after the legal move e2e4 the en-passant target IS set (to e3, row 5
column 4), yet the produced FEN ends in the constant fields `KQkq -`; and
`boardToFEN` does not depend on `kingMoved`, `rookMoved` or
`enPassantTarget` at all, so the castling field can never be a proper subset
and the en-passant field can never name a square. -/
theorem claim_C3_fen_castling_and_en_passant_fields_constant :
    ((⟨4, 4, false⟩ : Mv) ∈ getValidMoves initialState 6 4 ∧
     afterE2E4.enPassantTarget = some (5, 4) ∧
     boardToFEN afterE2E4 =
       "rnbqkbnr/pppppppp/8/8/4P3/8/PPPP1PPP/RNBQKBNR b KQkq - 0 1") ∧
    ∀ (st : GameState) (km : KingMoved) (rm : RookMoved)
      (ept : Option (Int × Int)),
      boardToFEN { st with kingMoved := km, rookMoved := rm,
                           enPassantTarget := ept } = boardToFEN st := by
  exact ⟨by decide, fun st km rm ept => rfl⟩

/-- Claim C4.  The claim states that a castling move is never among the legal
moves when the king is currently in check.  This evaluation refutes it: in
`c4St` (white Ke1/Rh1 with castling rights, black rook e8 checking the white
king down the open e-file) white's king IS in check, yet the kingside-castle
move to g1 is in `getValidMoves` for the king's square — the generator
checks only the rights flags, the empty squares and the rook's presence, and
the filter only that the king's destination square is safe. -/
theorem claim_C4_castle_offered_while_in_check :
    cellI c4St.board 7 4 = "K" ∧
    isKingInCheck c4St.board Color.white = true ∧
    (⟨7, 6, false⟩ : Mv) ∈ getValidMoves c4St 7 4 := by
  decide

/-- Claim C5, counterexample.  The claim states that a move absent from the
legal move set is rejected with the game state left unchanged.  On the code,
handing `movePiece` the illegal move e2e5 from the initial position is not
rejected: the board changes, the move is appended to the history and the
turn flips. -/
theorem claim_C5_counterexample_illegal_move_not_rejected :
    (⟨3, 4, false⟩ : Mv) ∉ getValidMoves initialState 6 4 ∧
    c5Res.board ≠ initialState.board ∧
    c5Res.moveHistory = ["e2e5"] ∧
    c5Res.currentPlayer = Color.black := by
  decide

/-- Claim C5, amended.  `movePiece` performs no legality validation at all
and there is no `IllegalMoveError` anywhere: it unconditionally applies
whatever move it is handed, appending one entry to the history and flipping
the side to move.  (The only gating is in the UI click handler, which calls
`movePiece` just for moves of the displayed `validMoves` list, and
`makeRandomMove` applies pseudo-legal candidates unchecked.) -/
theorem claim_C5_movePiece_never_rejects :
    ∀ (st : GameState) (fromRow fromCol toRow toCol : Int)
      (castleType : Option String) (isEnPassant : Bool),
      (movePiece st fromRow fromCol toRow toCol castleType isEnPassant).moveHistory.length
          = st.moveHistory.length + 1 ∧
      (movePiece st fromRow fromCol toRow toCol castleType isEnPassant).currentPlayer
          = opponent st.currentPlayer := by
  intro st fromRow fromCol toRow toCol castleType isEnPassant
  refine ⟨?_, rfl⟩
  simp [movePiece]

/-- Claim C6.  Starting from the initial position, after the legal moves
e2e4, a7a6, e4e5, d7d5 the en-passant capture e5d6 is in the legal move set
of the e5 pawn (marked as en passant), and applying it puts the white pawn
on d6 while emptying both e5 and d5 (the captured black pawn is removed
from d5). -/
theorem claim_C6_en_passant_capture_legal_and_removes_d5 :
    (⟨4, 4, false⟩ : Mv) ∈ getValidMoves initialState 6 4 ∧
    (⟨2, 0, false⟩ : Mv) ∈ getValidMoves afterE2E4 1 0 ∧
    (⟨3, 4, false⟩ : Mv) ∈ getValidMoves c6g2 4 4 ∧
    (⟨3, 3, false⟩ : Mv) ∈ getValidMoves c6g3 1 3 ∧
    c6g4.enPassantTarget = some (2, 3) ∧
    (⟨2, 3, true⟩ : Mv) ∈ getValidMoves c6g4 3 4 ∧
    cellI c6g5.board 2 3 = "P" ∧
    cellI c6g5.board 3 3 = "" ∧
    cellI c6g5.board 3 4 = "" := by
  decide

/-- Claim C7.  The claim states the fool's mate sequence f2f3 e7e5 g2g4 d8h4
ends with `gameResult = '0-1'`.  This evaluation refutes it on the code:
all four moves are legal, the final position has white's king in check and
is checkmate when tested with the POST-move en-passant target (`none`), but
`movePiece` evaluates `isCheckmate` with the STALE pre-move target g3 (set
by g2g4 and not yet cleared in the render closure), under which the bogus
pseudo-legal "en-passant" pawn move h2g3 blocks the queen's diagonal in the
simulation, so no checkmate is detected and `gameResult` stays `none`. -/
theorem claim_C7_fools_mate_checkmate_missed :
    (⟨5, 5, false⟩ : Mv) ∈ getValidMoves initialState 6 5 ∧
    (⟨3, 4, false⟩ : Mv) ∈ getValidMoves c7f1 1 4 ∧
    (⟨4, 6, false⟩ : Mv) ∈ getValidMoves c7f2 6 6 ∧
    (⟨4, 7, false⟩ : Mv) ∈ getValidMoves c7f3 0 3 ∧
    isKingInCheck c7f4.board Color.white = true ∧
    c7f4.enPassantTarget = none ∧
    isCheckmate c7f4.enPassantTarget c7f4.kingMoved c7f4.rookMoved
      c7f4.board Color.white = true ∧
    c7f3.enPassantTarget = some (5, 6) ∧
    isCheckmate c7f3.enPassantTarget c7f4.kingMoved c7f4.rookMoved
      c7f4.board Color.white = false ∧
    c7f4.gameResult = none := by
  decide

/-- Claim C8, counterexample.  The claim states the en-passant target is
cleared after any move that is not a pawn two-square advance.  On the AI
path it is not: after white's e2e4 sets the target to e3, the AI's knight
reply g8f6 (a `makeRandomMove` candidate) leaves the target unchanged,
because `makeRandomMove` never touches `enPassantTarget`. -/
theorem claim_C8_counterexample_ai_move_keeps_stale_target :
    afterE2E4.enPassantTarget = some (5, 4) ∧
    (((0, 6), ⟨2, 5, false⟩) : (Int × Int) × Mv) ∈ makeRandomMoveCandidates afterE2E4 ∧
    loStr (cellI afterE2E4.board 0 6) = "n" ∧
    c8d2.enPassantTarget = some (5, 4) := by
  decide

/-- Claim C8, amended.  On the `movePiece` path the claim's rule holds: the
en-passant target is set exactly when the moved piece is a pawn displaced by
two rows, in which case it names the square behind the pawn's source (the
square jumped over, for generator-produced advances), and is cleared by
every other move.  Moves applied through `makeRandomMove` leave the target
untouched. -/
theorem claim_C8_en_passant_target_rule_movePiece_only :
    (∀ (st : GameState) (fromRow fromCol toRow toCol : Int)
       (castleType : Option String) (isEnPassant : Bool),
      (loStr (cellI st.board fromRow fromCol) = "p" ∧ (toRow - fromRow).natAbs = 2 →
        (movePiece st fromRow fromCol toRow toCol castleType isEnPassant).enPassantTarget =
          some ((if cellI st.board fromRow fromCol = upStr (cellI st.board fromRow fromCol)
                 then fromRow - 1 else fromRow + 1), fromCol)) ∧
      (¬(loStr (cellI st.board fromRow fromCol) = "p" ∧ (toRow - fromRow).natAbs = 2) →
        (movePiece st fromRow fromCol toRow toCol castleType isEnPassant).enPassantTarget =
          none)) ∧
    (∀ (st : GameState) (fromSq : Int × Int) (mv : Mv),
      (makeRandomMoveApply st fromSq mv).enPassantTarget = st.enPassantTarget) := by
  constructor
  · intro st fromRow fromCol toRow toCol castleType isEnPassant
    have he : (movePiece st fromRow fromCol toRow toCol castleType isEnPassant).enPassantTarget =
        (if loStr (cellI st.board fromRow fromCol) = "p" ∧ (toRow - fromRow).natAbs = 2 then
          some ((if cellI st.board fromRow fromCol = upStr (cellI st.board fromRow fromCol)
                 then fromRow - 1 else fromRow + 1), fromCol)
        else none) := rfl
    constructor
    · intro h
      rw [he]
      exact if_pos h
    · intro h
      rw [he]
      exact if_neg h
  · intro st fromSq mv
    rfl

/-- Witness for the C8 amended theorem: e2e4 (a pawn two-square advance)
sets the target to e3, and the knight move b1c3 clears it. -/
theorem claim_C8_en_passant_target_rule_witness :
    (movePiece initialState 6 4 4 4 none false).enPassantTarget = some (5, 4) ∧
    (movePiece initialState 7 1 5 2 none false).enPassantTarget = none := by
  have h := claim_C8_en_passant_target_rule_movePiece_only
  constructor
  · exact ((h.1 initialState 6 4 4 4 none false).1 (by decide)).trans (by decide)
  · exact (h.1 initialState 7 1 5 2 none false).2 (by decide)

/-- Claim C9, counterexample.  The claim states castling flags are cleared
whenever a rook is captured on its home square.  On the code they are not:
from `c9St` black's legal Rh3xh1 captures the white kingside rook on h1,
yet afterwards `rookMoved` is unchanged and `rookMoved.whiteKingSide` is
still `false` (the castle right is not recorded as forfeited). -/
theorem claim_C9_counterexample_rook_capture_keeps_flag :
    cellI c9St.board 7 7 = "R" ∧
    (⟨7, 7, false⟩ : Mv) ∈ getValidMoves c9St 5 7 ∧
    cellI c9Res.board 7 7 = "r" ∧
    c9Res.rookMoved = c9St.rookMoved ∧
    c9Res.rookMoved.whiteKingSide = false := by
  decide

/-- Claim C9, amended.  `movePiece` updates the castling-tracking flags only
from the MOVING piece, for either color and every home corner: a non-king
non-rook move leaves both flag records unchanged (in particular a capture of
a rook on its home square clears nothing); a king move sets the mover's
`kingMoved` flag and leaves `rookMoved` unchanged; a rook moving from one of
its color's home corners (a1/h1 for white, a8/h8 for black) sets exactly
that wing's `rookMoved` flag and leaves `kingMoved` unchanged; a rook moving
from any other square leaves both records unchanged.  The record-update
conclusions pin all remaining flags, so flags of other sides and wings never
change. -/
theorem claim_C9_castle_flags_set_only_by_own_moves :
    ∀ (st : GameState) (fromRow fromCol toRow toCol : Int)
      (castleType : Option String) (isEnPassant : Bool),
      (loStr (cellI st.board fromRow fromCol) ≠ "k" ∧
       loStr (cellI st.board fromRow fromCol) ≠ "r" →
        (movePiece st fromRow fromCol toRow toCol castleType isEnPassant).kingMoved
            = st.kingMoved ∧
        (movePiece st fromRow fromCol toRow toCol castleType isEnPassant).rookMoved
            = st.rookMoved) ∧
      (cellI st.board fromRow fromCol = "K" →
        (movePiece st fromRow fromCol toRow toCol castleType isEnPassant).kingMoved
            = { st.kingMoved with white := true } ∧
        (movePiece st fromRow fromCol toRow toCol castleType isEnPassant).rookMoved
            = st.rookMoved) ∧
      (cellI st.board fromRow fromCol = "k" →
        (movePiece st fromRow fromCol toRow toCol castleType isEnPassant).kingMoved
            = { st.kingMoved with black := true } ∧
        (movePiece st fromRow fromCol toRow toCol castleType isEnPassant).rookMoved
            = st.rookMoved) ∧
      (cellI st.board fromRow fromCol = "R" ∧ fromRow = 7 ∧ fromCol = 0 →
        (movePiece st fromRow fromCol toRow toCol castleType isEnPassant).rookMoved
            = { st.rookMoved with whiteQueenSide := true } ∧
        (movePiece st fromRow fromCol toRow toCol castleType isEnPassant).kingMoved
            = st.kingMoved) ∧
      (cellI st.board fromRow fromCol = "R" ∧ fromRow = 7 ∧ fromCol = 7 →
        (movePiece st fromRow fromCol toRow toCol castleType isEnPassant).rookMoved
            = { st.rookMoved with whiteKingSide := true } ∧
        (movePiece st fromRow fromCol toRow toCol castleType isEnPassant).kingMoved
            = st.kingMoved) ∧
      (cellI st.board fromRow fromCol = "r" ∧ fromRow = 0 ∧ fromCol = 0 →
        (movePiece st fromRow fromCol toRow toCol castleType isEnPassant).rookMoved
            = { st.rookMoved with blackQueenSide := true } ∧
        (movePiece st fromRow fromCol toRow toCol castleType isEnPassant).kingMoved
            = st.kingMoved) ∧
      (cellI st.board fromRow fromCol = "r" ∧ fromRow = 0 ∧ fromCol = 7 →
        (movePiece st fromRow fromCol toRow toCol castleType isEnPassant).rookMoved
            = { st.rookMoved with blackKingSide := true } ∧
        (movePiece st fromRow fromCol toRow toCol castleType isEnPassant).kingMoved
            = st.kingMoved) ∧
      (cellI st.board fromRow fromCol = "R" ∧ ¬(fromRow = 7 ∧ fromCol = 0)
          ∧ ¬(fromRow = 7 ∧ fromCol = 7) →
        (movePiece st fromRow fromCol toRow toCol castleType isEnPassant).rookMoved
            = st.rookMoved ∧
        (movePiece st fromRow fromCol toRow toCol castleType isEnPassant).kingMoved
            = st.kingMoved) ∧
      (cellI st.board fromRow fromCol = "r" ∧ ¬(fromRow = 0 ∧ fromCol = 0)
          ∧ ¬(fromRow = 0 ∧ fromCol = 7) →
        (movePiece st fromRow fromCol toRow toCol castleType isEnPassant).rookMoved
            = st.rookMoved ∧
        (movePiece st fromRow fromCol toRow toCol castleType isEnPassant).kingMoved
            = st.kingMoved) := by
  intro st fromRow fromCol toRow toCol castleType isEnPassant
  have hkm : (movePiece st fromRow fromCol toRow toCol castleType isEnPassant).kingMoved =
      (if loStr (cellI st.board fromRow fromCol) = "k" then
        (if cellI st.board fromRow fromCol = upStr (cellI st.board fromRow fromCol) then
          { st.kingMoved with white := true }
        else { st.kingMoved with black := true })
      else st.kingMoved) := rfl
  have hrm : (movePiece st fromRow fromCol toRow toCol castleType isEnPassant).rookMoved =
      (if loStr (cellI st.board fromRow fromCol) = "r" then
        (if cellI st.board fromRow fromCol = upStr (cellI st.board fromRow fromCol) then
          (if fromRow = 7 ∧ fromCol = 0 then { st.rookMoved with whiteQueenSide := true }
           else if fromRow = 7 ∧ fromCol = 7 then { st.rookMoved with whiteKingSide := true }
           else st.rookMoved)
        else
          (if fromRow = 0 ∧ fromCol = 0 then { st.rookMoved with blackQueenSide := true }
           else if fromRow = 0 ∧ fromCol = 7 then { st.rookMoved with blackKingSide := true }
           else st.rookMoved))
      else st.rookMoved) := rfl
  refine ⟨fun h => ⟨?_, ?_⟩, fun h => ⟨?_, ?_⟩, fun h => ⟨?_, ?_⟩, fun h => ⟨?_, ?_⟩,
          fun h => ⟨?_, ?_⟩, fun h => ⟨?_, ?_⟩, fun h => ⟨?_, ?_⟩, fun h => ⟨?_, ?_⟩,
          fun h => ⟨?_, ?_⟩⟩
  · rw [hkm, if_neg h.1]
  · rw [hrm, if_neg h.2]
  · rw [hkm, h, if_pos (by decide)]
    exact if_pos (by decide)
  · rw [hrm, h]
    exact if_neg (by decide)
  · rw [hkm, h, if_pos (by decide)]
    exact if_neg (by decide)
  · rw [hrm, h]
    exact if_neg (by decide)
  · obtain ⟨h1, h2, h3⟩ := h
    subst h2; subst h3
    rw [hrm, h1, if_pos (by decide), if_pos (by decide)]
    exact if_pos (by decide)
  · obtain ⟨h1, h2, h3⟩ := h
    rw [hkm, h1]
    exact if_neg (by decide)
  · obtain ⟨h1, h2, h3⟩ := h
    subst h2; subst h3
    rw [hrm, h1, if_pos (by decide), if_pos (by decide), if_neg (by decide)]
    exact if_pos (by decide)
  · obtain ⟨h1, h2, h3⟩ := h
    rw [hkm, h1]
    exact if_neg (by decide)
  · obtain ⟨h1, h2, h3⟩ := h
    subst h2; subst h3
    rw [hrm, h1, if_pos (by decide), if_neg (by decide)]
    exact if_pos (by decide)
  · obtain ⟨h1, h2, h3⟩ := h
    rw [hkm, h1]
    exact if_neg (by decide)
  · obtain ⟨h1, h2, h3⟩ := h
    subst h2; subst h3
    rw [hrm, h1, if_pos (by decide), if_neg (by decide), if_neg (by decide)]
    exact if_pos (by decide)
  · obtain ⟨h1, h2, h3⟩ := h
    rw [hkm, h1]
    exact if_neg (by decide)
  · obtain ⟨h1, h2, h3⟩ := h
    rw [hrm, h1, if_pos (by decide), if_pos (by decide), if_neg h2]
    exact if_neg h3
  · obtain ⟨h1, h2, h3⟩ := h
    rw [hkm, h1]
    exact if_neg (by decide)
  · obtain ⟨h1, h2, h3⟩ := h
    rw [hrm, h1, if_pos (by decide), if_neg (by decide), if_neg h2]
    exact if_neg h3
  · obtain ⟨h1, h2, h3⟩ := h
    rw [hkm, h1]
    exact if_neg (by decide)

/-- Witness for the C9 amended theorem, exercising each kind of hypothesis:
the pawn move e2e4 leaves both flag records unchanged; a white king move
(Ke1d1 in `c4St`) sets `kingMoved.white`; a black king move (Ke8d8 in
`c9St`) sets `kingMoved.black`; a white rook leaving h1 (`c4St`) sets
`rookMoved.whiteKingSide`; a black rook leaving a8 (initial board) sets
`rookMoved.blackQueenSide`; and the black rook of `c9St` moving from the
non-corner square h3 changes nothing. -/
theorem claim_C9_castle_flags_witness :
    ((movePiece initialState 6 4 4 4 none false).kingMoved = initialState.kingMoved ∧
     (movePiece initialState 6 4 4 4 none false).rookMoved = initialState.rookMoved) ∧
    (movePiece c4St 7 4 7 3 none false).kingMoved = { c4St.kingMoved with white := true } ∧
    (movePiece c9St 0 4 0 3 none false).kingMoved = { c9St.kingMoved with black := true } ∧
    (movePiece c4St 7 7 5 7 none false).rookMoved
        = { c4St.rookMoved with whiteKingSide := true } ∧
    (movePiece initialState 0 0 2 0 none false).rookMoved
        = { initialState.rookMoved with blackQueenSide := true } ∧
    (movePiece c9St 5 7 7 7 none false).rookMoved = c9St.rookMoved := by
  refine ⟨?_, ?_, ?_, ?_, ?_, ?_⟩
  · exact (claim_C9_castle_flags_set_only_by_own_moves
      initialState 6 4 4 4 none false).1 ⟨by decide, by decide⟩
  · exact ((claim_C9_castle_flags_set_only_by_own_moves
      c4St 7 4 7 3 none false).2.1 (by decide)).1
  · exact ((claim_C9_castle_flags_set_only_by_own_moves
      c9St 0 4 0 3 none false).2.2.1 (by decide)).1
  · exact ((claim_C9_castle_flags_set_only_by_own_moves
      c4St 7 7 5 7 none false).2.2.2.2.1 ⟨by decide, rfl, rfl⟩).1
  · exact ((claim_C9_castle_flags_set_only_by_own_moves
      initialState 0 0 2 0 none false).2.2.2.2.2.1 ⟨by decide, rfl, rfl⟩).1
  · exact ((claim_C9_castle_flags_set_only_by_own_moves
      c9St 5 7 7 7 none false).2.2.2.2.2.2.2.2 ⟨by decide, by decide, by decide⟩).1

/-- Claim C10.  `undoMove` with a non-empty history does not revert one
move: it resets the whole game to `initialState` (initial board, white to
move, empty history, no result, no en-passant target, castling-tracking
flags cleared — the fields of `initialState`); with an empty history it
changes nothing. -/
theorem claim_C10_undoMove_resets_whole_game :
    ∀ st : GameState,
      (st.moveHistory ≠ [] → undoMove st = initialState) ∧
      (st.moveHistory = [] → undoMove st = st) := by
  intro st
  constructor
  · intro h
    have hlen : ¬st.moveHistory.length = 0 := by
      simpa [List.length_eq_zero] using h
    unfold undoMove
    rw [if_neg hlen]
  · intro h
    unfold undoMove
    rw [if_pos (by simp [h])]

/-- Witness for C10: after e2e4 the history is non-empty and `undoMove`
restores `initialState`; on the initial state it changes nothing. -/
theorem claim_C10_undoMove_witness :
    undoMove afterE2E4 = initialState ∧ undoMove initialState = initialState := by
  exact ⟨(claim_C10_undoMove_resets_whole_game afterE2E4).1 (by decide),
         (claim_C10_undoMove_resets_whole_game initialState).2 rfl⟩

end ChessApp
